import Mathlib

/-!
Verification of the WeatherCompare aggregation pipeline (`comparer/weather_utils.py`
and `comparer/views.py`) against its specification.

The Python code is shallowly embedded: numeric weather values are rationals
(idealising Python floats), JSON-ish payloads are structures whose optional
fields model missing / null / non-numeric entries after pandas coercion, and
the stateful clients (cache, rate limiter, network) are embedded as pure
functions over explicit state with trace fields recording which side effects
(rate-limiter consultation, network call, cache write) an execution performs.
Calendar dates are represented by their month period index `year * 12 + (month - 1)`,
which is the only part of a date the monthly aggregation inspects.
-/

namespace WeatherCompare

/-- Python's built-in `round` on a rational: round half to even (banker's rounding),
as used by `round(x)` and, at scaled precision, by `round(x, 2)`. -/
def pyRound (q : ℚ) : ℤ :=
  let f := ⌊q⌋
  let r := q - (f : ℚ)
  if r < 1/2 then f
  else if 1/2 < r then f + 1
  else if f % 2 = 0 then f else f + 1

/-- Python's `round(x, 2)`: round to two decimal places, half to even. -/
def round2 (q : ℚ) : ℚ := (pyRound (q * 100) : ℚ) / 100

/-- Python's `%` on numbers (floored modulus): `x % m = x - m * floor (x / m)`. -/
def pyMod (x m : ℚ) : ℚ := x - m * (⌊x / m⌋ : ℚ)

/-! ### Compass direction (`views._get_wind_direction_text`) -/

/-- The 16-point compass list of `_get_wind_direction_text`, starting at North. -/
def DIRECTIONS : List String :=
  ["N", "NNE", "NE", "ENE", "E", "ESE", "SE", "SSE",
   "S", "SSW", "SW", "WSW", "W", "WNW", "NW", "NNW"]

/-- Embedding of `views._get_wind_direction_text` for a numeric argument: normalize the degrees
with `% 360`, divide by 22.5, round to the nearest integer (Python `round`),
take `% 16` and index into `DIRECTIONS`. (The Python `None` guard is outside
this numeric model.) -/
def getWindDirectionText (degrees : ℚ) : String :=
  let d := pyMod degrees 360
  let index := ((pyRound (d / (45/2))) % 16).toNat
  DIRECTIONS.getD index ""

/-- The normalized angle is `360 * fract (d / 360)`. -/
lemma pyMod_eq_fract (d : ℚ) : pyMod d 360 = 360 * Int.fract (d / 360) := by
  unfold pyMod Int.fract
  field_simp

lemma pyMod_nonneg (d : ℚ) : 0 ≤ pyMod d 360 := by
  rw [pyMod_eq_fract]
  have h := Int.fract_nonneg (d / 360)
  positivity

lemma pyMod_lt (d : ℚ) : pyMod d 360 < 360 := by
  rw [pyMod_eq_fract]
  have h := Int.fract_lt_one (d / 360)
  nlinarith

lemma wind_0 : getWindDirectionText 0 = "N" := by
  have h1 : pyMod 0 360 = 0 := by unfold pyMod; norm_num
  have h2 : pyRound ((0 : ℚ) / (45/2)) = 0 := by unfold pyRound; norm_num
  simp only [getWindDirectionText, h1, h2]
  rfl

lemma wind_359 : getWindDirectionText 359 = "N" := by
  have h1 : pyMod 359 360 = 359 := by unfold pyMod; norm_num
  have h2 : pyRound ((359 : ℚ) / (45/2)) = 16 := by unfold pyRound; norm_num
  simp only [getWindDirectionText, h1, h2]
  rfl

lemma wind_45 : getWindDirectionText 45 = "NE" := by
  have h1 : pyMod 45 360 = 45 := by unfold pyMod; norm_num
  have h2 : pyRound ((45 : ℚ) / (45/2)) = 2 := by unfold pyRound; norm_num
  simp only [getWindDirectionText, h1, h2]
  rfl

lemma wind_190 : getWindDirectionText 190 = "S" := by
  have h1 : pyMod 190 360 = 190 := by unfold pyMod; norm_num
  have h2 : pyRound ((190 : ℚ) / (45/2)) = 8 := by unfold pyRound; norm_num
  simp only [getWindDirectionText, h1, h2]
  rfl

/-- C3, counterexample: the claim asserts that 190° maps to "SSW", but
`_get_wind_direction_text(190)` returns "S" (190 / 22.5 = 8.44…, which rounds
to bucket 8, the "S" entry of the compass list; the "SSW" bucket only starts
at 191.25°). -/
theorem C3_counterexample :
    getWindDirectionText 190 = "S" ∧ getWindDirectionText 190 ≠ "SSW" := by
  refine ⟨wind_190, ?_⟩
  rw [wind_190]
  decide

/-- C3, amended: for every wind direction in degrees, the compass-label
conversion computes degrees normalized with Python `%` into `[0, 360)`,
divides by 22.5, rounds to the nearest integer with Python `round`, takes the
result modulo 16 and indexes the 16-point compass list starting at "N";
in particular 0° maps to "N", 359° maps to "N", 45° maps to "NE", and
190° maps to "S". -/
theorem C3_wind_direction_formula :
    (∀ degrees : ℚ, 0 ≤ pyMod degrees 360 ∧ pyMod degrees 360 < 360)
    ∧ (∀ degrees : ℚ,
        getWindDirectionText degrees =
          DIRECTIONS.getD (((pyRound (pyMod degrees 360 / (45/2))) % 16).toNat) "")
    ∧ getWindDirectionText 0 = "N"
    ∧ getWindDirectionText 359 = "N"
    ∧ getWindDirectionText 45 = "NE"
    ∧ getWindDirectionText 190 = "S" :=
  ⟨fun d => ⟨pyMod_nonneg d, pyMod_lt d⟩, fun _ => rfl, wind_0, wind_359, wind_45, wind_190⟩

/-! ### Raw archive payloads and the daily series preparer
(`weather_utils._create_and_prepare_daily_dataframe`) -/

/-- Default units (`DEFAULT_TEMP_UNIT` / `DEFAULT_PRECIP_UNIT`). -/
def DEFAULT_TEMP_UNIT : String := "°C"

def DEFAULT_PRECIP_UNIT : String := "mm"

/-- The `daily` object of a raw archive payload, after the pandas coercions of
`_create_and_prepare_daily_dataframe` are applied entrywise: a `time` entry is
`none` when `pd.to_datetime(..., errors="coerce")` yields `NaT`, and a metric
entry is `none` when the JSON value is missing/null or non-numeric, so that
`pd.to_numeric(..., errors="coerce")` yields `NaN`. A date is represented by
its month period index `year * 12 + (month - 1)`, the only part of the date the
monthly resampling inspects. An absent column is the empty list (the code reads
columns with `api_data_json["daily"].get(col, [])`). -/
structure RawDaily where
  time : List (Option ℤ)
  temperature_2m_mean : List (Option ℚ)
  precipitation_sum : List (Option ℚ)
deriving DecidableEq, Repr

/-- The `daily_units` object; `none` models an absent key (the code reads it
with `.get("daily_units", {}).get(key, default)`). -/
structure DailyUnits where
  temperature_2m_mean : Option String
  precipitation_sum : Option String
deriving DecidableEq, Repr

/-- A raw archive API payload: `daily := none` models a missing/empty `daily`
object. -/
structure RawPayload where
  daily : Option RawDaily
  daily_units : DailyUnits
deriving DecidableEq, Repr

/-- A row of the prepared daily DataFrame: `dropna` was applied on the two
numeric columns only, so both metrics are present, while the date may still be
`NaT` (`none`). -/
structure PreparedRow where
  date : Option ℤ
  temp : ℚ
  precip : ℚ
deriving DecidableEq, Repr

/-- Keep a zipped `(time, (temp, precip))` triple only when both numeric
entries are present, as `df.dropna(subset=["temperature_2m_mean",
"precipitation_sum"])` does. -/
def keepRow : Option ℤ × Option ℚ × Option ℚ → Option PreparedRow
  | (t, some a, some b) => some ⟨t, a, b⟩
  | (_, _, _) => none

/-- Embedding of `weather_utils._create_and_prepare_daily_dataframe`: returns `none` when the
payload is absent or lacks `daily` (first guard), when the three column lists
have mismatched lengths (the `pd.DataFrame` constructor raises `ValueError`,
caught by the generic handler), or when no row survives `dropna` (`df.empty`);
otherwise the surviving rows, in order, with the date as index. -/
def createAndPrepareDailyDataframe (api_data_json : Option RawPayload) :
    Option (List PreparedRow) :=
  match api_data_json with
  | none => none
  | some p =>
    match p.daily with
    | none => none
    | some d =>
      if d.time.length = d.temperature_2m_mean.length
          ∧ d.temperature_2m_mean.length = d.precipitation_sum.length then
        let rows := (d.time.zip (d.temperature_2m_mean.zip d.precipitation_sum)).filterMap keepRow
        if rows.isEmpty then none else some rows
      else none

/-! ### Monthly aggregation (`weather_utils._aggregate_daily_data_to_monthly`) -/

/-- One entry of the aggregator's result list:
`{"month": m, "avg_temp": ..., "total_precip": ...}`. -/
structure MonthlyStat where
  month : ℕ
  avg_temp : Option ℚ
  total_precip : Option ℚ
deriving DecidableEq, Repr

/-- Calendar month (1..12) of a month period index, as `date.month` reads it. -/
def monthOfPeriod (p : ℤ) : ℕ := (p % 12).toNat + 1

/-- The pre-created result list: 12 entries with months 1..12 and null metrics. -/
def initMonthly : List MonthlyStat :=
  (List.range 12).map (fun i => ⟨i + 1, none, none⟩)

/-- Embedding of `monthly_results[month - 1].update({...})`: since the pre-created list holds
month `m` exactly at position `m - 1` and updates never change the `month`
field, updating by position coincides with updating the entry whose `month`
field matches. -/
def applyUpdate (l : List MonthlyStat) (m : ℕ) (t pr : Option ℚ) : List MonthlyStat :=
  l.map (fun s => if s.month = m then ⟨s.month, t, pr⟩ else s)

def listMinI : List ℤ → Option ℤ
  | [] => none
  | x :: xs => some (xs.foldl min x)

def listMaxI : List ℤ → Option ℤ
  | [] => none
  | x :: xs => some (xs.foldl max x)

/-- The monthly rows produced by `daily_df.resample("ME").agg(...)` for one
month period `p`: the arithmetic mean of the temperatures (`NaN`, hence a null
entry, when the bin is empty) and the sum of the precipitations (pandas sums an
empty bin to `0.0`, which is not null). Each non-null value is rounded to two
decimals by the update loop. -/
def resampleUpdate (dated : List (ℤ × ℚ × ℚ)) (acc : List MonthlyStat) (p : ℤ) :
    List MonthlyStat :=
  let g := dated.filter (fun x => x.1 = p)
  let temps := g.map (fun x => x.2.1)
  let precips := g.map (fun x => x.2.2)
  let avg : Option ℚ :=
    if temps.isEmpty then none else some (round2 (temps.sum / temps.length))
  let tot : Option ℚ := some (round2 precips.sum)
  applyUpdate acc (monthOfPeriod p) avg tot

/-- Embedding of `weather_utils._aggregate_daily_data_to_monthly`: `[]` when the DataFrame is
absent or empty; otherwise the pre-created 12-entry list updated, in ascending
month-period order, from the resampled bins spanning the index's min to max
period (`NaT` index entries take part in no bin, and an index with no valid
date at all makes the resampling raise, caught by the handler that returns
`[]`). The `year` argument only keys the memoization in the code; it does
not affect the result. -/
def aggregateDailyDataToMonthly (daily_df : Option (List PreparedRow)) :
    List MonthlyStat :=
  match daily_df with
  | none => []
  | some rows =>
    if rows.isEmpty then []
    else
      let dated := rows.filterMap (fun r => r.date.map (fun p => (p, r.temp, r.precip)))
      match listMinI (dated.map (fun x => x.1)), listMaxI (dated.map (fun x => x.1)) with
      | some lo, some hi =>
        (((List.range (hi - lo + 1).toNat).map (fun k => lo + k)).foldl
          (resampleUpdate dated) initMonthly)
      | _, _ => []

lemma applyUpdate_months (l : List MonthlyStat) (m : ℕ) (t pr : Option ℚ) :
    (applyUpdate l m t pr).map (fun s => s.month) = l.map (fun s => s.month) := by
  induction l with
  | nil => rfl
  | cons a l ih =>
    simp only [applyUpdate, List.map_cons, List.cons.injEq] at *
    exact ⟨by split <;> rfl, ih⟩

lemma foldl_resample_months (dated : List (ℤ × ℚ × ℚ)) (ps : List ℤ)
    (acc : List MonthlyStat) :
    ((ps.foldl (resampleUpdate dated) acc).map (fun s => s.month))
      = acc.map (fun s => s.month) := by
  induction ps generalizing acc with
  | nil => rfl
  | cons p ps ih =>
    rw [List.foldl_cons, ih]
    exact applyUpdate_months acc _ _ _

/-- C1, counterexample: the claim asserts that for an absent (`None`) table the
aggregation still returns 12 monthly entries; `_aggregate_daily_data_to_monthly`
returns the empty list instead (`if daily_df is None or daily_df.empty: return []`). -/
theorem C1_counterexample :
    aggregateDailyDataToMonthly none = []
    ∧ (aggregateDailyDataToMonthly none).length ≠ 12 := by
  exact ⟨rfl, by decide⟩

/-- C1, amended: the monthly aggregation returns either the empty list or
exactly 12 monthly entries whose month fields are 1..12 in strictly increasing
order; when the input table is absent (`None`) or empty it returns the empty
list, not 12 all-null entries. -/
theorem C1_aggregate_shape :
    aggregateDailyDataToMonthly none = []
    ∧ aggregateDailyDataToMonthly (some []) = []
    ∧ ∀ daily_df : Option (List PreparedRow),
        aggregateDailyDataToMonthly daily_df = []
        ∨ ((aggregateDailyDataToMonthly daily_df).map (fun s => s.month)
              = [1, 2, 3, 4, 5, 6, 7, 8, 9, 10, 11, 12]
            ∧ (aggregateDailyDataToMonthly daily_df).length = 12
            ∧ List.Chain' (· < ·)
                ((aggregateDailyDataToMonthly daily_df).map (fun s => s.month))) := by
  refine ⟨rfl, rfl, ?_⟩
  intro daily_df
  match daily_df with
  | none => exact Or.inl rfl
  | some rows =>
    by_cases he : rows.isEmpty
    · exact Or.inl (by simp [aggregateDailyDataToMonthly, he])
    · rcases hmin : listMinI ((rows.filterMap
          (fun r => r.date.map (fun p => (p, r.temp, r.precip)))).map (fun x => x.1))
        with _ | lo
      · left
        simp [aggregateDailyDataToMonthly, he, hmin]
      · rcases hmax : listMaxI ((rows.filterMap
            (fun r => r.date.map (fun p => (p, r.temp, r.precip)))).map (fun x => x.1))
          with _ | hi
        · left
          simp [aggregateDailyDataToMonthly, he, hmin, hmax]
        · right
          have hval : aggregateDailyDataToMonthly (some rows)
              = (((List.range (hi - lo + 1).toNat).map (fun k => lo + k)).foldl
                  (resampleUpdate (rows.filterMap
                    (fun r => r.date.map (fun p => (p, r.temp, r.precip))))) initMonthly) := by
            simp [aggregateDailyDataToMonthly, he, hmin, hmax]
          have hm : initMonthly.map (fun s => s.month)
              = [1, 2, 3, 4, 5, 6, 7, 8, 9, 10, 11, 12] := by decide
          rw [hval, foldl_resample_months, hm]
          refine ⟨rfl, ?_, by simp [List.chain'_cons]⟩
          have := congrArg List.length (foldl_resample_months (rows.filterMap
            (fun r => r.date.map (fun p => (p, r.temp, r.precip))))
            (((List.range (hi - lo + 1).toNat).map (fun k => lo + k))) initMonthly)
          simpa using this

/-! ### Annual orchestration (`weather_utils.get_historical_annual_data_by_month`) -/

/-- Result dictionary of the annual pipeline: `monthly_data`, `temp_unit`,
`precip_unit`. -/
structure AnnualResult where
  monthly_data : List MonthlyStat
  temp_unit : String
  precip_unit : String
deriving DecidableEq, Repr

/-- Embedding of `weather_utils.get_historical_annual_data_by_month` downstream of the
cache lookup: the argument is the outcome of `_fetch_raw_annual_data_from_api`
(`none` models a fetch failure, which propagates as the `None` critical-failure
sentinel). On a successful fetch the daily series is prepared and aggregated
(an unusable series leaves `monthly_data` as the default empty list), and units
are read from the raw payload's `daily_units` with the `"°C"`/`"mm"` fallbacks. -/
def getHistoricalAnnualDataByMonth (raw_api_data : Option RawPayload) :
    Option AnnualResult :=
  match raw_api_data with
  | none => none
  | some raw =>
    let daily_df := createAndPrepareDailyDataframe (some raw)
    let monthly_aggregated_data :=
      match daily_df with
      | some df => aggregateDailyDataToMonthly (some df)
      | none => []
    some { monthly_data := monthly_aggregated_data,
           temp_unit := raw.daily_units.temperature_2m_mean.getD DEFAULT_TEMP_UNIT,
           precip_unit := raw.daily_units.precipitation_sum.getD DEFAULT_PRECIP_UNIT }

/-- Raw payload whose one daily row has both metrics missing: the fetch
succeeds (a `daily.time` list is present) but preparation yields no usable
rows. -/
def noUsableRowsPayload : RawPayload :=
  { daily := some { time := [some 0],
                    temperature_2m_mean := [none],
                    precipitation_sum := [none] },
    daily_units := { temperature_2m_mean := some "°F",
                     precipitation_sum := some "inch" } }

/-- C2, counterexample: the claim asserts that when the fetch succeeds but
preparation yields no usable rows, `monthly_data` consists of 12 all-null
entries; the code leaves `monthly_data` as the empty list instead (tested by
`test_get_historical_annual_data_dataframe_prep_fails`). The units are still
taken from the raw payload's `daily_units`. -/
theorem C2_counterexample :
    getHistoricalAnnualDataByMonth (some noUsableRowsPayload)
        = some { monthly_data := [], temp_unit := "°F", precip_unit := "inch" }
    ∧ (getHistoricalAnnualDataByMonth (some noUsableRowsPayload)).map
        (fun r => r.monthly_data.length) ≠ some 12 := by
  exact ⟨rfl, by decide⟩

/-- C2, amended: whenever the archive fetch succeeds but daily-series
preparation yields no usable rows, the annual pipeline returns a non-failure
result (not `None`) whose `monthly_data` is the empty list and whose
`temp_unit`/`precip_unit` are taken from the raw payload's `daily_units`,
falling back to `"°C"`/`"mm"` when absent. -/
theorem C2_no_usable_rows_result (raw : RawPayload)
    (h : createAndPrepareDailyDataframe (some raw) = none) :
    getHistoricalAnnualDataByMonth (some raw)
      = some { monthly_data := [],
               temp_unit := raw.daily_units.temperature_2m_mean.getD DEFAULT_TEMP_UNIT,
               precip_unit := raw.daily_units.precipitation_sum.getD DEFAULT_PRECIP_UNIT } := by
  simp [getHistoricalAnnualDataByMonth, h]

/-- C2, witness: the amended theorem applied to the concrete payload whose only
row has both metrics missing. -/
theorem C2_no_usable_rows_result_witness :
    getHistoricalAnnualDataByMonth (some noUsableRowsPayload)
      = some { monthly_data := [],
               temp_unit := noUsableRowsPayload.daily_units.temperature_2m_mean.getD
                 DEFAULT_TEMP_UNIT,
               precip_unit := noUsableRowsPayload.daily_units.precipitation_sum.getD
                 DEFAULT_PRECIP_UNIT } :=
  C2_no_usable_rows_result noUsableRowsPayload rfl

lemma mem_zip3_get {α β γ : Type} {l1 : List α} {l2 : List β} {l3 : List γ}
    {x : α × β × γ} (h : x ∈ l1.zip (l2.zip l3)) :
    ∃ i, l1.get? i = some x.1 ∧ l2.get? i = some x.2.1 ∧ l3.get? i = some x.2.2 := by
  induction l1 generalizing l2 l3 with
  | nil => simp at h
  | cons a l1 ih =>
    cases l2 with
    | nil => simp at h
    | cons b l2 =>
      cases l3 with
      | nil => simp at h
      | cons c l3 =>
        rw [List.zip_cons_cons, List.zip_cons_cons, List.mem_cons] at h
        rcases h with h | h
        · exact ⟨0, by simp [h]⟩
        · obtain ⟨i, h1, h2, h3⟩ := ih h
          exact ⟨i + 1, by simpa using h1, by simpa using h2, by simpa using h3⟩

/-- C6: the daily-series preparation drops exactly the rows where either
numeric value is missing or non-numeric: the surviving rows are the zipped
triples kept by `keepRow` (both metrics present), in order, and every surviving
row originates from an input position where both the temperature and the
precipitation entry were present — so a day missing either metric contributes
to neither of its month's aggregates. -/
theorem C6_dropped_row_symmetry (d : RawDaily) (u : DailyUnits)
    (rows : List PreparedRow)
    (h : createAndPrepareDailyDataframe (some { daily := some d, daily_units := u })
        = some rows) :
    rows = (d.time.zip (d.temperature_2m_mean.zip d.precipitation_sum)).filterMap keepRow
    ∧ ∀ r ∈ rows, ∃ i,
        d.time.get? i = some r.date
        ∧ d.temperature_2m_mean.get? i = some (some r.temp)
        ∧ d.precipitation_sum.get? i = some (some r.precip) := by
  have hrows : rows
      = (d.time.zip (d.temperature_2m_mean.zip d.precipitation_sum)).filterMap keepRow := by
    simp only [createAndPrepareDailyDataframe] at h
    split at h
    · split at h
      · exact absurd h (by simp)
      · injection h with h
        exact h.symm
    · exact absurd h (by simp)
  refine ⟨hrows, ?_⟩
  intro r hr
  rw [hrows] at hr
  obtain ⟨x, hx, hkeep⟩ := List.mem_filterMap.mp hr
  obtain ⟨t, mt, pr⟩ := x
  obtain ⟨i, h1, h2, h3⟩ := mem_zip3_get hx
  cases mt with
  | none => simp [keepRow] at hkeep
  | some a =>
    cases pr with
    | none => simp [keepRow] at hkeep
    | some b =>
      simp only [keepRow, Option.some.injEq] at hkeep
      subst hkeep
      exact ⟨i, h1, h2, h3⟩

/-- Concrete daily series: day 0 has both metrics, day 1 lacks the temperature,
day 2 lacks the precipitation. -/
def mixedDaily : RawDaily :=
  { time := [some 0, some 1, some 2],
    temperature_2m_mean := [some 10, none, some 5],
    precipitation_sum := [some 1, some 2, none] }

/-- C6, witness: preparing the concrete mixed series keeps exactly the one row
with both metrics present; the day missing only its precipitation (and the day
missing only its temperature) contributes no row at all. -/
theorem C6_dropped_row_symmetry_witness :
    createAndPrepareDailyDataframe
        (some { daily := some mixedDaily,
                daily_units := { temperature_2m_mean := none, precipitation_sum := none } })
      = some [{ date := some 0, temp := 10, precip := 1 }]
    ∧ ([{ date := some 0, temp := 10, precip := 1 }] : List PreparedRow)
      = (mixedDaily.time.zip
          (mixedDaily.temperature_2m_mean.zip mixedDaily.precipitation_sum)).filterMap keepRow :=
  ⟨rfl,
    (C6_dropped_row_symmetry mixedDaily
      { temperature_2m_mean := none, precipitation_sum := none }
      [{ date := some 0, temp := 10, precip := 1 }] rfl).1⟩

/-! ### Multi-year averaging (`weather_utils._get_data_for_month` and
`weather_utils.get_historical_5year_average_data`) -/

/-- Embedding of `weather_utils._get_data_for_month`: collect, over all collected monthly
data points whose `month` field matches, the non-null temperatures and (independently)
the non-null precipitations; average each list and round to two decimals, or
yield null when the list is empty. -/
def getDataForMonth (all_monthly_data : List MonthlyStat) (month : ℕ) : MonthlyStat :=
  let temps := all_monthly_data.filterMap
    (fun data => if data.month = month then data.avg_temp else none)
  let precips := all_monthly_data.filterMap
    (fun data => if data.month = month then data.total_precip else none)
  { month := month,
    avg_temp :=
      if temps.isEmpty then none else some (round2 (temps.sum / temps.length)),
    total_precip :=
      if precips.isEmpty then none else some (round2 (precips.sum / precips.length)) }

lemma filterMap_month_eq_filter (l : List MonthlyStat) (m : ℕ)
    (f : MonthlyStat → Option ℚ) :
    l.filterMap (fun d => if d.month = m then f d else none)
      = (l.filter (fun d => decide (d.month = m) && (f d).isSome)).filterMap f := by
  induction l with
  | nil => rfl
  | cons a l ih =>
    by_cases hm : a.month = m
    · cases hfa : f a with
      | none => simp [List.filterMap_cons, List.filter_cons, hm, hfa, ih]
      | some q => simp [List.filterMap_cons, List.filter_cons, hm, hfa, ih]
    · simp [List.filterMap_cons, List.filter_cons, hm, ih]

lemma ifEmptyAvg_eq_none_iff (l : List ℚ) :
    (if l.isEmpty then none else some (round2 (l.sum / l.length))) = none ↔ l = [] := by
  cases l <;> simp

/-- Monthly data points for month 3 across five years, with avg_temp values
10.0, 12.0, null, 11.0, null — the worked example of the claim. -/
def fiveYearsMonth3 : List MonthlyStat :=
  [{ month := 3, avg_temp := some 10, total_precip := some 1 },
   { month := 3, avg_temp := some 12, total_precip := some 2 },
   { month := 3, avg_temp := none, total_precip := some 3 },
   { month := 3, avg_temp := some 11, total_precip := none },
   { month := 3, avg_temp := none, total_precip := some 4 }]

/-- C4: for every calendar month, the multi-year averaging helper averages
`avg_temp` over exactly the collected entries of that month with a non-null
`avg_temp`, and independently averages `total_precip` over exactly the entries
of that month with a non-null `total_precip` (each rounded to two decimals);
a metric with no non-null contribution is null, and the worked example
[10, 12, null, 11, null] for month 3 averages to 11. -/
theorem C4_per_month_averaging (all_monthly_data : List MonthlyStat) (m : ℕ) :
    ((getDataForMonth all_monthly_data m).month = m)
    ∧ ((getDataForMonth all_monthly_data m).avg_temp =
        (let ts := (all_monthly_data.filter
            (fun d => decide (d.month = m) && d.avg_temp.isSome)).filterMap
              (fun d => d.avg_temp)
         if ts.isEmpty then none else some (round2 (ts.sum / ts.length))))
    ∧ ((getDataForMonth all_monthly_data m).total_precip =
        (let ps := (all_monthly_data.filter
            (fun d => decide (d.month = m) && d.total_precip.isSome)).filterMap
              (fun d => d.total_precip)
         if ps.isEmpty then none else some (round2 (ps.sum / ps.length))))
    ∧ ((getDataForMonth all_monthly_data m).avg_temp = none ↔
        ∀ d ∈ all_monthly_data, d.month = m → d.avg_temp = none)
    ∧ ((getDataForMonth all_monthly_data m).total_precip = none ↔
        ∀ d ∈ all_monthly_data, d.month = m → d.total_precip = none)
    ∧ (getDataForMonth fiveYearsMonth3 3).avg_temp = some 11 := by
  refine ⟨rfl, ?_, ?_, ?_, ?_, ?_⟩
  · simp only [getDataForMonth, filterMap_month_eq_filter]
  · simp only [getDataForMonth, filterMap_month_eq_filter]
  · simp only [getDataForMonth, ifEmptyAvg_eq_none_iff, List.filterMap_eq_nil_iff,
      ite_eq_right_iff]
  · simp only [getDataForMonth, ifEmptyAvg_eq_none_iff, List.filterMap_eq_nil_iff,
      ite_eq_right_iff]
  · have h33 : round2 ((10 + (12 + 11) : ℚ) / 3) = 11 := by
      unfold round2 pyRound
      norm_num
    simp [getDataForMonth, fiveYearsMonth3, h33]

/-- Result dictionary of `get_historical_5year_average_data`. -/
structure WeatherDataResult where
  monthly_data : List MonthlyStat
  temp_unit : String
  precip_unit : String
  year_range : String
deriving DecidableEq, Repr

/-- The data-collection loop of `get_historical_5year_average_data`, with its
accumulators (`all_data`, `temp_unit`, `precip_unit`) explicit. The input list
holds, in ascending year order, the per-year results of
`get_historical_annual_data_by_month`. A year is skipped when its result is
`None` or has empty `monthly_data`; otherwise its monthly data is appended and,
whenever the accumulated `temp_unit` still equals the default, both units are
overwritten with this year's units. -/
def collectYearData :
    List (Option AnnualResult) → List MonthlyStat → String → String →
      List MonthlyStat × String × String
  | [], all_data, tu, pu => (all_data, tu, pu)
  | yr :: rest, all_data, tu, pu =>
    match yr with
    | none => collectYearData rest all_data tu pu
    | some y =>
      if y.monthly_data.isEmpty then collectYearData rest all_data tu pu
      else if tu = DEFAULT_TEMP_UNIT then
        collectYearData rest (all_data ++ y.monthly_data) y.temp_unit y.precip_unit
      else collectYearData rest (all_data ++ y.monthly_data) tu pu

/-- Embedding of `weather_utils.get_historical_5year_average_data` downstream of its
cache lookup: collect the per-year data, fail with `None` when nothing was
collected, otherwise average each calendar month 1..12. -/
def getHistorical5YearAverageData (start_year end_year : ℤ)
    (yearResults : List (Option AnnualResult)) : Option WeatherDataResult :=
  let c := collectYearData yearResults [] DEFAULT_TEMP_UNIT DEFAULT_PRECIP_UNIT
  if c.1.isEmpty then none
  else
    some { monthly_data := (List.range 12).map (fun i => getDataForMonth c.1 (i + 1)),
           temp_unit := c.2.1,
           precip_unit := c.2.2,
           year_range := toString start_year ++ "-" ++ toString end_year }

/-- Years of the window that the loop does not skip: result present and
`monthly_data` non-empty. -/
def successfulYears (yearResults : List (Option AnnualResult)) : List AnnualResult :=
  (yearResults.filterMap id).filter (fun y => !y.monthly_data.isEmpty)

/-- Concatenated monthly data of a list of annual results, in order. -/
def allMonthlyOf : List AnnualResult → List MonthlyStat
  | [] => []
  | y :: ys => y.monthly_data ++ allMonthlyOf ys

/-- Unit pair that the collection loop settles on, characterized directly:
the units of the first successful year whose `temp_unit` differs from the
default; when every successful year reports the default `temp_unit`, the
default temperature unit together with the last successful year's
`precip_unit` (the fold keeps overwriting, so it ends on the last element,
or on the inherited value when there is no successful year). -/
def unitsOutcome (succ : List AnnualResult) (pu : String) : String × String :=
  match succ.find? (fun y => !(y.temp_unit == DEFAULT_TEMP_UNIT)) with
  | some y => (y.temp_unit, y.precip_unit)
  | none => (DEFAULT_TEMP_UNIT, succ.foldl (fun _ y => y.precip_unit) pu)

lemma unitsOutcome_cons_default (y : AnnualResult) (s : List AnnualResult)
    (pu : String) (hu : y.temp_unit = DEFAULT_TEMP_UNIT) :
    unitsOutcome (y :: s) pu = unitsOutcome s y.precip_unit := by
  have hpred : ((fun z => !(z.temp_unit == DEFAULT_TEMP_UNIT)) y) = false := by
    simp [hu]
  simp only [unitsOutcome, List.find?_cons, hpred, List.foldl_cons]

lemma unitsOutcome_cons_nondefault (y : AnnualResult) (s : List AnnualResult)
    (pu : String) (hu : y.temp_unit ≠ DEFAULT_TEMP_UNIT) :
    unitsOutcome (y :: s) pu = (y.temp_unit, y.precip_unit) := by
  have hpred : ((fun z => !(z.temp_unit == DEFAULT_TEMP_UNIT)) y) = true := by
    simpa using hu
  simp only [unitsOutcome, List.find?_cons, hpred]

lemma successfulYears_nil : successfulYears [] = [] := rfl

lemma successfulYears_cons_none (rest : List (Option AnnualResult)) :
    successfulYears (none :: rest) = successfulYears rest := rfl

lemma successfulYears_cons_skip (y : AnnualResult) (rest : List (Option AnnualResult))
    (h : y.monthly_data.isEmpty) :
    successfulYears (some y :: rest) = successfulYears rest := by
  simp [successfulYears, List.filterMap_cons, List.filter_cons, h]

lemma successfulYears_cons_keep (y : AnnualResult) (rest : List (Option AnnualResult))
    (h : ¬ y.monthly_data.isEmpty) :
    successfulYears (some y :: rest) = y :: successfulYears rest := by
  simp [successfulYears, List.filterMap_cons, List.filter_cons, h]

lemma collect_frozen (yrs : List (Option AnnualResult)) :
    ∀ (all_data : List MonthlyStat) (tu pu : String), tu ≠ DEFAULT_TEMP_UNIT →
      collectYearData yrs all_data tu pu
        = (all_data ++ allMonthlyOf (successfulYears yrs), tu, pu) := by
  induction yrs with
  | nil => intro all_data tu pu _; simp [collectYearData, successfulYears_nil, allMonthlyOf]
  | cons yr rest ih =>
    intro all_data tu pu htu
    match yr with
    | none => simpa [collectYearData, successfulYears_cons_none] using ih all_data tu pu htu
    | some y =>
      by_cases he : y.monthly_data.isEmpty
      · simpa [collectYearData, he, successfulYears_cons_skip y rest he]
          using ih all_data tu pu htu
      · simp only [collectYearData, if_neg he, if_neg htu,
          successfulYears_cons_keep y rest he, allMonthlyOf]
        rw [ih (all_data ++ y.monthly_data) tu pu htu, List.append_assoc]

lemma collect_default (yrs : List (Option AnnualResult)) :
    ∀ (all_data : List MonthlyStat) (pu : String),
      collectYearData yrs all_data DEFAULT_TEMP_UNIT pu
        = (all_data ++ allMonthlyOf (successfulYears yrs),
           unitsOutcome (successfulYears yrs) pu) := by
  induction yrs with
  | nil =>
    intro all_data pu
    simp [collectYearData, successfulYears_nil, allMonthlyOf, unitsOutcome]
  | cons yr rest ih =>
    intro all_data pu
    match yr with
    | none => simpa [collectYearData, successfulYears_cons_none] using ih all_data pu
    | some y =>
      by_cases he : y.monthly_data.isEmpty
      · simpa [collectYearData, he, successfulYears_cons_skip y rest he] using ih all_data pu
      · have hstep : collectYearData (some y :: rest) all_data DEFAULT_TEMP_UNIT pu
            = collectYearData rest (all_data ++ y.monthly_data) y.temp_unit y.precip_unit := by
          simp [collectYearData, he]
        rw [hstep, successfulYears_cons_keep y rest he]
        by_cases hu : y.temp_unit = DEFAULT_TEMP_UNIT
        · rw [unitsOutcome_cons_default y _ pu hu, hu,
            ih (all_data ++ y.monthly_data) y.precip_unit]
          simp [allMonthlyOf, List.append_assoc]
        · rw [collect_frozen rest (all_data ++ y.monthly_data) y.temp_unit y.precip_unit hu,
            unitsOutcome_cons_nondefault y _ pu hu]
          simp [allMonthlyOf, List.append_assoc]

lemma mem_successfulYears_ne_nil (yrs : List (Option AnnualResult)) :
    ∀ y ∈ successfulYears yrs, y.monthly_data ≠ [] := by
  intro y hy
  have := (List.mem_filter.mp hy).2
  simpa [List.isEmpty_iff] using this

lemma allMonthlyOf_eq_nil_iff (l : List AnnualResult)
    (h : ∀ y ∈ l, y.monthly_data ≠ []) : allMonthlyOf l = [] ↔ l = [] := by
  cases l with
  | nil => simp [allMonthlyOf]
  | cons y ys =>
    simp only [allMonthlyOf, List.append_eq_nil]
    constructor
    · rintro ⟨h1, -⟩
      exact absurd h1 (h y (List.mem_cons_self y ys))
    · intro hc
      exact absurd hc (by simp)

/-- First window year: successful, reports the default temperature unit. -/
def yearReportingDefault : AnnualResult :=
  { monthly_data := [{ month := 1, avg_temp := some 5, total_precip := some 1 }],
    temp_unit := "°C", precip_unit := "mm" }

/-- Second window year: successful, reports Fahrenheit/inches. -/
def yearReportingFahrenheit : AnnualResult :=
  { monthly_data := [{ month := 1, avg_temp := some 7, total_precip := some 2 }],
    temp_unit := "°F", precip_unit := "inch" }

/-- C8, counterexample: in a two-year window where the first successful year
reports the default units ("°C"/"mm") and the second reports "°F"/"inch", the
claim requires the result to carry the first year's units; the code's guard
`if temp_unit == DEFAULT_TEMP_UNIT` lets the second year overwrite them, so the
result carries "°F"/"inch". -/
theorem C8_counterexample :
    successfulYears [some yearReportingDefault, some yearReportingFahrenheit]
        = [yearReportingDefault, yearReportingFahrenheit]
    ∧ (getHistorical5YearAverageData 2020 2021
          [some yearReportingDefault, some yearReportingFahrenheit]).map
        (fun r => (r.temp_unit, r.precip_unit)) = some ("°F", "inch")
    ∧ (("°F", "inch") : String × String)
        ≠ (yearReportingDefault.temp_unit, yearReportingDefault.precip_unit) := by
  exact ⟨rfl, rfl, by decide⟩

/-- C8, amended: the multi-year result carries the units of the first
successful year in the window whose reported `temp_unit` differs from the
default "°C"; while the accumulated `temp_unit` still equals "°C", every
successful year overwrites both units, so when all successful years report
"°C", the final `precip_unit` is the last successful year's; and when no year
in the window succeeds, the operation returns the failure sentinel `None`
rather than a result with default units. -/
theorem C8_units_first_nondefault_year (start_year end_year : ℤ)
    (yearResults : List (Option AnnualResult)) :
    (getHistorical5YearAverageData start_year end_year yearResults = none
      ↔ successfulYears yearResults = [])
    ∧ ∀ r, getHistorical5YearAverageData start_year end_year yearResults = some r →
        (r.temp_unit, r.precip_unit)
          = unitsOutcome (successfulYears yearResults) DEFAULT_PRECIP_UNIT := by
  have hc : collectYearData yearResults [] DEFAULT_TEMP_UNIT DEFAULT_PRECIP_UNIT
      = (allMonthlyOf (successfulYears yearResults),
         unitsOutcome (successfulYears yearResults) DEFAULT_PRECIP_UNIT) := by
    simpa using collect_default yearResults [] DEFAULT_PRECIP_UNIT
  constructor
  · simp only [getHistorical5YearAverageData, hc]
    by_cases hempty : (allMonthlyOf (successfulYears yearResults)).isEmpty
    · simp only [hempty, if_pos]
      constructor
      · intro _
        exact (allMonthlyOf_eq_nil_iff _ (mem_successfulYears_ne_nil yearResults)).mp
          (List.isEmpty_iff.mp hempty)
      · intro _
        trivial
    · simp only [hempty, if_neg, Bool.false_eq_true, not_false_eq_true]
      constructor
      · intro h
        exact absurd h (by simp)
      · intro hnil
        rw [hnil] at hempty
        simp [allMonthlyOf] at hempty
  · intro r hr
    simp only [getHistorical5YearAverageData, hc] at hr
    by_cases hempty : (allMonthlyOf (successfulYears yearResults)).isEmpty
    · rw [if_pos hempty] at hr
      exact absurd hr (by simp)
    · rw [if_neg hempty] at hr
      injection hr with hr
      rw [← hr]

/-- Result of the two-year window used in the C8 witness: both successful
years carry a single all-null January entry, so all twelve averaged months are
null and the units come from the second (first non-default) year. -/
def fahrenheitWindowResult : WeatherDataResult :=
  { monthly_data := initMonthly, temp_unit := "°F", precip_unit := "inch",
    year_range := "2020-2021" }

/-- All-null single-entry year reporting the default units. -/
def nullYearDefaultUnits : AnnualResult :=
  { monthly_data := [{ month := 1, avg_temp := none, total_precip := none }],
    temp_unit := "°C", precip_unit := "mm" }

/-- All-null single-entry year reporting Fahrenheit/inches. -/
def nullYearFahrenheit : AnnualResult :=
  { monthly_data := [{ month := 1, avg_temp := none, total_precip := none }],
    temp_unit := "°F", precip_unit := "inch" }

/-- C8, witness: a window of five failed years maps to `None`, and a concrete
two-year window settles on the units characterized by `unitsOutcome`. -/
theorem C8_units_first_nondefault_year_witness :
    getHistorical5YearAverageData 2020 2024 [none, none, none, none, none] = none
    ∧ (fahrenheitWindowResult.temp_unit, fahrenheitWindowResult.precip_unit)
        = unitsOutcome (successfulYears [some nullYearDefaultUnits, some nullYearFahrenheit])
            DEFAULT_PRECIP_UNIT :=
  ⟨(C8_units_first_nondefault_year 2020 2024 [none, none, none, none, none]).1.mpr rfl,
   (C8_units_first_nondefault_year 2020 2021
      [some nullYearDefaultUnits, some nullYearFahrenheit]).2 fahrenheitWindowResult rfl⟩

/-! ### Geocoding and archive-fetch execution traces
(`weather_utils.get_coordinates_for_city`,
`weather_utils._fetch_raw_annual_data_from_api`,
`weather_utils.get_current_weather_data`)

Each client is embedded as a pure function of its inputs, the current cache
contents and the outcome the network would produce, returning a trace that
records whether the rate limiter was consulted (`wait_if_needed` executed),
whether a network request was issued, the returned value, and the cache
contents afterwards. -/

/-- Geocoding result dictionary (`latitude`, `longitude`, `address`). -/
structure Coordinates where
  latitude : ℚ
  longitude : ℚ
  address : String
deriving DecidableEq, Repr

/-- Outcome the geocoding service would produce if contacted, covering the
four failure branches of `get_coordinates_for_city`. -/
inductive GeoNet where
  | located (c : Coordinates)
  | noMatch
  | timedOut
  | unavailable
  | otherError
deriving DecidableEq, Repr

/-- Failure outcomes: everything except a located result. -/
def GeoNet.isFailure : GeoNet → Bool
  | .located _ => false
  | _ => true

/-- Python's `str.strip()` on a character list: drop whitespace from both ends. -/
def pyStrip (l : List Char) : List Char :=
  ((l.dropWhile Char.isWhitespace).reverse.dropWhile Char.isWhitespace).reverse

/-- Cache key of `get_coordinates_for_city`:
`f"geocode_{city_name.lower().strip().replace(' ', '_')}"` (lower-casing
modelled for ASCII letters). -/
def geocodeCacheKey (city_name : String) : String :=
  String.mk ("geocode_".data
    ++ (pyStrip (city_name.data.map Char.toLower)).map (fun c => if c = ' ' then '_' else c))

/-- Django cache lookup, modelled over an association list. -/
def cacheGet {α : Type} (cache : List (String × α)) (k : String) : Option α :=
  (cache.find? (fun e => e.1 == k)).map (fun e => e.2)

/-- Execution trace of one `get_coordinates_for_city` call. -/
structure GeoTrace where
  limiterConsulted : Bool
  networkCalled : Bool
  result : Option Coordinates
  cacheAfter : List (String × Coordinates)
deriving DecidableEq, Repr

/-- Embedding of `weather_utils.get_coordinates_for_city`: an empty name (the only
falsy string) short-circuits to `None`; a cache hit returns the cached value
without consulting the rate limiter; on a miss the rate limiter is consulted,
the service is called, and only a located result is written to the cache —
every failure branch returns `None` and leaves the cache unchanged. -/
def getCoordinatesForCity (city_name : String)
    (cache : List (String × Coordinates)) (net : GeoNet) : GeoTrace :=
  if city_name = "" then
    { limiterConsulted := false, networkCalled := false, result := none,
      cacheAfter := cache }
  else
    match cacheGet cache (geocodeCacheKey city_name) with
    | some c =>
      { limiterConsulted := false, networkCalled := false, result := some c,
        cacheAfter := cache }
    | none =>
      match net with
      | .located c =>
        { limiterConsulted := true, networkCalled := true, result := some c,
          cacheAfter := (geocodeCacheKey city_name, c) :: cache }
      | _ =>
        { limiterConsulted := true, networkCalled := true, result := none,
          cacheAfter := cache }

/-- Outcome the archive service would produce if contacted. -/
inductive ArchiveNet where
  | ok (payload : RawPayload)
  | requestError
  | jsonError
deriving DecidableEq, Repr

/-- Execution trace of one `_fetch_raw_annual_data_from_api` call. -/
structure FetchTrace where
  limiterConsulted : Bool
  networkCalled : Bool
  result : Option RawPayload
deriving DecidableEq, Repr

/-- Embedding of `weather_utils._fetch_raw_annual_data_from_api`: the function calls
`OPEN_METEO_RATE_LIMITER.wait_if_needed()` first, before the cache lookup, so
the rate limiter is consulted on every call; a cache hit then returns the
cached payload without a network request; on a miss the service is called and
a response lacking a truthy `daily` object is rejected.
(`get_current_weather_data` has the same limiter-before-cache shape.) -/
def fetchRawAnnualDataFromApi (cached : Option RawPayload) (net : ArchiveNet) :
    FetchTrace :=
  match cached with
  | some p => { limiterConsulted := true, networkCalled := false, result := some p }
  | none =>
    { limiterConsulted := true, networkCalled := true,
      result :=
        match net with
        | .ok p => if p.daily.isSome then some p else none
        | _ => none }

/-- Concrete raw payload sitting in the archive cache. -/
def cachedArchivePayload : RawPayload :=
  { daily := some { time := [some 648],
                    temperature_2m_mean := [some 10],
                    precipitation_sum := [some 1] },
    daily_units := { temperature_2m_mean := some "°C",
                     precipitation_sum := some "mm" } }

/-- C5, counterexample: on a cache hit the archive fetch does return the cached
payload without a network request, but the claim's "the rate limiter is never
consulted on a cache hit" is false — `wait_if_needed` runs before the cache
lookup, so the limiter is consulted even when the payload is cached. -/
theorem C5_counterexample :
    (fetchRawAnnualDataFromApi (some cachedArchivePayload) ArchiveNet.requestError).result
        = some cachedArchivePayload
    ∧ (fetchRawAnnualDataFromApi (some cachedArchivePayload)
        ArchiveNet.requestError).networkCalled = false
    ∧ (fetchRawAnnualDataFromApi (some cachedArchivePayload)
        ArchiveNet.requestError).limiterConsulted = true :=
  ⟨rfl, rfl, rfl⟩

/-- C5, amended: the archive fetch consults the rate limiter on every call
(it runs `wait_if_needed` before checking the cache); a cache hit still
returns the cached payload without issuing a network request. This differs
from the geocoder, whose cache hits return before the rate limiter is
consulted. -/
theorem C5_cache_hit_no_network (cached : Option RawPayload) (net : ArchiveNet) :
    ((fetchRawAnnualDataFromApi cached net).limiterConsulted = true)
    ∧ (∀ p : RawPayload, cached = some p →
        (fetchRawAnnualDataFromApi cached net).result = some p
        ∧ (fetchRawAnnualDataFromApi cached net).networkCalled = false)
    ∧ (∀ (city_name : String) (cache : List (String × Coordinates))
          (c : Coordinates) (gnet : GeoNet),
        city_name ≠ "" → cacheGet cache (geocodeCacheKey city_name) = some c →
        (getCoordinatesForCity city_name cache gnet).limiterConsulted = false
        ∧ (getCoordinatesForCity city_name cache gnet).networkCalled = false
        ∧ (getCoordinatesForCity city_name cache gnet).result = some c) := by
  refine ⟨?_, ?_, ?_⟩
  · cases cached <;> rfl
  · intro p hp
    subst hp
    exact ⟨rfl, rfl⟩
  · intro city_name cache c gnet hname hhit
    simp [getCoordinatesForCity, if_neg hname, hhit]

/-- Cached coordinates used by the C5 witness. -/
def londonCoordinates : Coordinates :=
  { latitude := 51, longitude := 0, address := "London, UK" }

/-- C5, witness: the amended theorem applied to a concrete cached payload and a
concrete geocoding cache hit. -/
theorem C5_cache_hit_no_network_witness :
    (fetchRawAnnualDataFromApi (some cachedArchivePayload) ArchiveNet.jsonError).result
        = some cachedArchivePayload
    ∧ (getCoordinatesForCity "london"
        [(geocodeCacheKey "london", londonCoordinates)] GeoNet.timedOut).limiterConsulted
        = false :=
  ⟨((C5_cache_hit_no_network (some cachedArchivePayload) ArchiveNet.jsonError).2.1
      cachedArchivePayload rfl).1,
   ((C5_cache_hit_no_network none ArchiveNet.jsonError).2.2 "london"
      [(geocodeCacheKey "london", londonCoordinates)] londonCoordinates GeoNet.timedOut
      (by decide) rfl).1⟩

/-- C7, counterexample: the claim covers names that are empty or whitespace-only,
but the guard `if not city_name` only catches the empty string — a
whitespace-only name such as `"   "` is truthy, misses the (empty) cache, and
proceeds to a rate-limited network call to the geocoding service. -/
theorem C7_counterexample :
    ("   ".data.all Char.isWhitespace = true ∧ "   " ≠ "")
    ∧ (getCoordinatesForCity "   " [] GeoNet.noMatch).networkCalled = true
    ∧ (getCoordinatesForCity "   " [] GeoNet.noMatch).limiterConsulted = true := by
  exact ⟨⟨rfl, by decide⟩, rfl, rfl⟩

/-- C7, amended: only the empty city name short-circuits — it yields the
`NotFound` sentinel with no rate-limiter consultation, no network call, and no
cache write; a non-empty name (whitespace-only included) is not special-cased
and, on a cache miss, consults the rate limiter and calls the geocoding
service. -/
theorem C7_empty_name_short_circuit :
    (∀ (cache : List (String × Coordinates)) (net : GeoNet),
        getCoordinatesForCity "" cache net
          = { limiterConsulted := false, networkCalled := false, result := none,
              cacheAfter := cache })
    ∧ ∀ (city_name : String) (cache : List (String × Coordinates)) (net : GeoNet),
        city_name ≠ "" → cacheGet cache (geocodeCacheKey city_name) = none →
        (getCoordinatesForCity city_name cache net).limiterConsulted = true
        ∧ (getCoordinatesForCity city_name cache net).networkCalled = true := by
  constructor
  · intro cache net
    rfl
  · intro city_name cache net hname hmiss
    simp only [getCoordinatesForCity, if_neg hname, hmiss]
    cases net <;> exact ⟨rfl, rfl⟩

/-- C7, witness: the amended theorem applied to the empty name and to a
concrete whitespace-only name with an empty cache. -/
theorem C7_empty_name_short_circuit_witness :
    getCoordinatesForCity "" [] GeoNet.otherError
      = { limiterConsulted := false, networkCalled := false, result := none,
          cacheAfter := [] }
    ∧ (getCoordinatesForCity " " [] GeoNet.noMatch).limiterConsulted = true
    ∧ (getCoordinatesForCity " " [] GeoNet.noMatch).networkCalled = true :=
  ⟨C7_empty_name_short_circuit.1 [] GeoNet.otherError,
   (C7_empty_name_short_circuit.2 " " [] GeoNet.noMatch (by decide) rfl).1,
   (C7_empty_name_short_circuit.2 " " [] GeoNet.noMatch (by decide) rfl).2⟩

/-- C10: on a cache miss, every failing geocoding lookup (no match, timeout,
service unavailable, or any other error) returns the `NotFound` sentinel and
writes nothing to the cache — only located results are ever stored — so a
subsequent call for the same name finds the cache unchanged, consults the rate
limiter, and contacts the geocoding service again. -/
theorem C10_failures_not_cached (city_name : String)
    (cache : List (String × Coordinates)) (net : GeoNet)
    (hname : city_name ≠ "")
    (hmiss : cacheGet cache (geocodeCacheKey city_name) = none)
    (hfail : net.isFailure = true) :
    (getCoordinatesForCity city_name cache net).result = none
    ∧ (getCoordinatesForCity city_name cache net).cacheAfter = cache
    ∧ ∀ net2 : GeoNet,
        (getCoordinatesForCity city_name
            (getCoordinatesForCity city_name cache net).cacheAfter net2).limiterConsulted
          = true
        ∧ (getCoordinatesForCity city_name
            (getCoordinatesForCity city_name cache net).cacheAfter net2).networkCalled
          = true := by
  have hsame : (getCoordinatesForCity city_name cache net).cacheAfter = cache := by
    cases net with
    | located c => simp [GeoNet.isFailure] at hfail
    | noMatch => simp [getCoordinatesForCity, if_neg hname, hmiss]
    | timedOut => simp [getCoordinatesForCity, if_neg hname, hmiss]
    | unavailable => simp [getCoordinatesForCity, if_neg hname, hmiss]
    | otherError => simp [getCoordinatesForCity, if_neg hname, hmiss]
  refine ⟨?_, hsame, ?_⟩
  · cases net with
    | located c => simp [GeoNet.isFailure] at hfail
    | noMatch => simp [getCoordinatesForCity, if_neg hname, hmiss]
    | timedOut => simp [getCoordinatesForCity, if_neg hname, hmiss]
    | unavailable => simp [getCoordinatesForCity, if_neg hname, hmiss]
    | otherError => simp [getCoordinatesForCity, if_neg hname, hmiss]
  · intro net2
    rw [hsame]
    simp only [getCoordinatesForCity, if_neg hname, hmiss]
    cases net2 <;> exact ⟨rfl, rfl⟩

/-- C10, witness: a concrete failing lookup (service unavailable) for a fresh
name leaves the empty cache empty, and the retry consults the rate limiter and
the network again. -/
theorem C10_failures_not_cached_witness :
    (getCoordinatesForCity "atlantis" [] GeoNet.unavailable).result = none
    ∧ (getCoordinatesForCity "atlantis" [] GeoNet.unavailable).cacheAfter = []
    ∧ (getCoordinatesForCity "atlantis"
        ((getCoordinatesForCity "atlantis" [] GeoNet.unavailable).cacheAfter)
        GeoNet.noMatch).networkCalled = true := by
  have h := C10_failures_not_cached "atlantis" [] GeoNet.unavailable
    (by decide) rfl rfl
  exact ⟨h.1, h.2.1, (h.2.2 GeoNet.noMatch).2⟩

/-! ### Rate limiter (`weather_utils.RateLimiter.wait_if_needed`) -/

/-- Python's `min` over a non-empty list of timestamps. -/
def listMinQ : List ℚ → Option ℚ
  | [] => none
  | x :: xs => some (xs.foldl min x)

/-- Embedding of `RateLimiter.wait_if_needed` with time explicit: timestamps are
rationals, `now` is the clock when the call starts, and the result is the sleep
duration together with the new timestamp log. The method prunes timestamps
older than `time_period`, sleeps until `oldest + time_period` when the pruned
log has reached `calls_limit`, and records its own timestamp (taken after the
sleep, so at `now + wait`) at the end. The `none` branch of `min` is outside
the modelled domain: with `calls_limit = 0` Python's `min([])` would raise. -/
def waitIfNeeded (calls_limit : ℕ) (time_period : ℚ) (calls_timestamps : List ℚ)
    (now : ℚ) : ℚ × List ℚ :=
  let kept := calls_timestamps.filter (fun ts => now - ts < time_period)
  if calls_limit ≤ kept.length then
    match listMinQ kept with
    | some oldest =>
      let wait_time := oldest + time_period - now
      if 0 < wait_time then (wait_time, kept ++ [now + wait_time])
      else (0, kept ++ [now])
    | none => (0, kept ++ [now])
  else (0, kept ++ [now])

lemma foldl_min_mem (xs : List ℚ) (x : ℚ) : xs.foldl min x ∈ x :: xs := by
  induction xs generalizing x with
  | nil => simp
  | cons y ys ih =>
    have h := ih (min x y)
    rcases List.mem_cons.mp h with h | h
    · rcases min_choice x y with hc | hc
      · rw [List.foldl_cons, h, hc]
        exact List.mem_cons_self _ _
      · rw [List.foldl_cons, h, hc]
        exact List.mem_cons_of_mem _ (List.mem_cons_self _ _)
    · exact List.mem_cons_of_mem _ (List.mem_cons_of_mem _ (by simpa using h))

lemma listMinQ_mem {l : List ℚ} {m : ℚ} (h : listMinQ l = some m) : m ∈ l := by
  cases l with
  | nil => simp [listMinQ] at h
  | cons x xs =>
    simp only [listMinQ, Option.some.injEq] at h
    rw [← h]
    exact foldl_min_mem xs x

/-- C9: when the log holds `calls_limit` timestamps that are all still inside
the rolling window at time `now`, the next `wait_if_needed` call blocks for a
positive duration, sleeping exactly until `oldest + time_period` — the instant
the oldest logged timestamp ages out of the window — and only then records its
own timestamp (the wake-up time) in the log; a call that finds fewer than
`calls_limit` timestamps inside the window does not sleep at all. -/
theorem C9_rate_limiter_blocks (calls_limit : ℕ) (time_period : ℚ)
    (ts : List ℚ) (now oldest : ℚ)
    (hlen : ts.length = calls_limit)
    (hwindow : ∀ t ∈ ts, now - t < time_period)
    (hmin : listMinQ ts = some oldest) :
    (waitIfNeeded calls_limit time_period ts now).1 = oldest + time_period - now
    ∧ 0 < (waitIfNeeded calls_limit time_period ts now).1
    ∧ (waitIfNeeded calls_limit time_period ts now).2 = ts ++ [oldest + time_period]
    ∧ ¬ ((now + (waitIfNeeded calls_limit time_period ts now).1) - oldest < time_period)
    ∧ (∀ (ts2 : List ℚ) (now2 : ℚ),
        (ts2.filter (fun t => now2 - t < time_period)).length < calls_limit →
        (waitIfNeeded calls_limit time_period ts2 now2).1 = 0) := by
  have hkept : ts.filter (fun t => now - t < time_period) = ts :=
    List.filter_eq_self.mpr (fun a ha => by simpa using hwindow a ha)
  have hpos : 0 < oldest + time_period - now := by
    have := hwindow oldest (listMinQ_mem hmin)
    linarith
  have heval : waitIfNeeded calls_limit time_period ts now
      = (oldest + time_period - now, ts ++ [now + (oldest + time_period - now)]) := by
    simp only [waitIfNeeded, hkept, hmin]
    rw [if_pos hlen.ge, if_pos hpos]
  have hwake : now + (oldest + time_period - now) = oldest + time_period := by ring
  refine ⟨by rw [heval], by rw [heval]; exact hpos, ?_, ?_, ?_⟩
  · rw [heval, hwake]
  · rw [heval]
    simp only
    rw [hwake]
    simp
  · intro ts2 now2 h2
    unfold waitIfNeeded
    rw [if_neg (not_le.mpr h2)]

/-- Window facts for the C9 witness: with the log `[0, 1]` and the third call
at time 2, both logged timestamps are inside the 60-second window. -/
lemma witnessWindow : ∀ t ∈ ([0, 1] : List ℚ), (2 : ℚ) - t < 60 := by
  intro t ht
  rcases List.mem_cons.mp ht with rfl | ht
  · norm_num
  · rcases List.mem_cons.mp ht with rfl | ht
    · norm_num
    · simp at ht

lemma witnessMin : listMinQ [0, 1] = some 0 := by
  norm_num [listMinQ]

/-- C9, witness: a limiter allowing 2 calls per 60 seconds admits calls at
times 0 and 1 without sleeping, and the third call at time 2 sleeps 58 seconds
until time 60 = oldest + period, then logs its wake-up time. -/
theorem C9_rate_limiter_blocks_witness :
    (waitIfNeeded 2 60 [0, 1] 2).1 = 0 + 60 - 2
    ∧ 0 < (waitIfNeeded 2 60 [0, 1] 2).1
    ∧ (waitIfNeeded 2 60 [0, 1] 2).2 = [0, 1] ++ [0 + 60]
    ∧ ¬ ((2 + (waitIfNeeded 2 60 [0, 1] 2).1) - 0 < 60)
    ∧ (waitIfNeeded 2 60 [] 0).1 = 0
    ∧ (waitIfNeeded 2 60 [0] 1).1 = 0 := by
  have h := C9_rate_limiter_blocks 2 60 [0, 1] 2 0 rfl witnessWindow witnessMin
  refine ⟨h.1, h.2.1, h.2.2.1, h.2.2.2.1, ?_, ?_⟩
  · exact h.2.2.2.2 [] 0 (by decide)
  · exact h.2.2.2.2 [0] 1
      (Nat.lt_of_le_of_lt (List.length_filter_le _ _) (by simp))

end WeatherCompare
